import Mathlib

/-!
Verification of the Jazjo ordering server (`src/server/index.mjs`) against its
natural-language specification.  The server is a thin HTTP facade over an
external relational store; we embed the store as an explicit `Store` record and
each server routine as a function threading the store.  JavaScript numbers are
modelled as integers (`ℤ`; every amount, quantity and stock level the system
manipulates is integral, and the arithmetic the claims concern is the same in
every ordered ring), absent/null values as `Option`, and thrown
errors as `Except Err` results that also return the store as it stands at the
moment of the throw (the external store keeps whatever was written before an
exception).
-/

namespace Jazjo

/-- Error value: the message and the optional HTTP status attached to the
thrown `Error` object (`err.status`), as consumed by the top-level handler. -/
structure Err where
  msg : String
  status : Option Nat
deriving DecidableEq

/-- Whitespace characters removed by `String.prototype.trim`. -/
def isWsChar (c : Char) : Bool :=
  c == ' ' || c == '\t' || c == '\n' || c == '\r' || c == '\x0b' || c == '\x0c'

/-- JS `String.prototype.trim`, over the character list so that it reduces in
the kernel. -/
def jsTrim (s : String) : String :=
  String.mk (((s.toList.dropWhile isWsChar).reverse.dropWhile isWsChar).reverse)

/-- JS `String.prototype.toLowerCase` (ASCII, which covers every string the
server compares). -/
def jsToLower (s : String) : String :=
  String.mk (s.toList.map Char.toLower)

/-- JS `String.prototype.toUpperCase` (ASCII). -/
def jsToUpper (s : String) : String :=
  String.mk (s.toList.map Char.toUpper)

/-- Split a character list at every occurrence of `sep`, JS
`String.prototype.split` with a one-character separator. -/
def splitChars (sep : Char) : List Char → List (List Char)
  | [] => [[]]
  | c :: rest =>
    let r := splitChars sep rest
    if c == sep then [] :: r
    else
      match r with
      | h :: t => (c :: h) :: t
      | [] => [[c]]

/-- JS `String.prototype.split` with a one-character separator. -/
def jsSplit (s : String) (sep : Char) : List String :=
  (splitChars sep s.toList).map String.mk

/-- Does `pre` occur at the head of `s`? -/
def startsWithChars : List Char → List Char → Bool
  | [], _ => true
  | _ :: _, [] => false
  | a :: as, b :: bs => a == b && startsWithChars as bs

/-- Does `pat` occur contiguously anywhere inside `s`? -/
def infixChars (pat : List Char) : List Char → Bool
  | [] => startsWithChars pat []
  | b :: bs => startsWithChars pat (b :: bs) || infixChars pat bs

/-- JS `String.prototype.includes`: substring containment. -/
def strIncludes (s sub : String) : Bool :=
  infixChars sub.toList s.toList

/-- `isQrphMethod` from the source: uppercase the method label and test for the
substring "QRPH". -/
def isQrphMethod (method : String) : Bool :=
  strIncludes (jsToUpper method) "QRPH"

/-- `toUiStatus` from the source: db status → display label, defaulting to the
input itself (or "Order Placed" for the empty string). -/
def toUiStatus (dbStatus : String) : String :=
  match dbStatus with
  | "pending_payment" => "Order Placed"
  | "order_placed" => "Order Placed"
  | "preparing" => "Preparing"
  | "in_transit" => "In Transit"
  | "out_for_delivery" => "Out for Delivery"
  | "delivered" => "Delivered"
  | "cancelled" => "Cancelled"
  | s => if s == "" then "Order Placed" else s

/-- `uiStatusToDbStatus` from the source: trim the requested label and map it
through the fixed table; unknown labels map to the empty string. -/
def uiStatusToDbStatus (status : String) : String :=
  match jsTrim status with
  | "Order Placed" => "order_placed"
  | "Preparing" => "preparing"
  | "In Transit" => "in_transit"
  | "Out for Delivery" => "out_for_delivery"
  | "Delivered" => "delivered"
  | "Cancelled" => "cancelled"
  | "pending_payment" => "pending_payment"
  | "order_placed" => "order_placed"
  | "preparing" => "preparing"
  | "in_transit" => "in_transit"
  | "out_for_delivery" => "out_for_delivery"
  | "delivered" => "delivered"
  | "cancelled" => "cancelled"
  | _ => ""

/-! ## PayMongo signature verification (`parsePaymongoSignature`,
`verifyPaymongoWebhookSignature`) -/

/-- Insert with overwrite into the parsed-header association list, mirroring
assignment into the JS object `out[k] = v` (later pairs overwrite earlier). -/
def sigInsert (out : List (String × String)) (k v : String) : List (String × String) :=
  if out.any (fun kv => kv.1 == k) then
    out.map (fun kv => if kv.1 == k then (k, v) else kv)
  else out ++ [(k, v)]

/-- `parsePaymongoSignature`: split the header on commas, each part on "=";
keep a pair only when both the raw key and the raw value are nonempty, storing
them trimmed. -/
def parsePaymongoSignature (headerValue : String) : List (String × String) :=
  (jsSplit headerValue ',').foldl
    (fun out part =>
      match jsSplit part '=' with
      | k :: v :: _ => if k != "" && v != "" then sigInsert out (jsTrim k) (jsTrim v) else out
      | _ => out)
    []

/-- Lookup in the parsed signature header. -/
def sigLookup (sig : List (String × String)) (k : String) : Option String :=
  (sig.find? (fun kv => kv.1 == k)).map (fun kv => kv.2)

/-- Timestamp field of the signature header (`sig.t || ""`). -/
def sigTimestamp (headerValue : String) : String :=
  (sigLookup (parsePaymongoSignature headerValue) "t").getD ""

/-- Candidate signatures `[sig.te, sig.li].filter(Boolean)`: the test-mode and
live-mode fields that are present and nonempty. -/
def sigCandidates (headerValue : String) : List String :=
  (([sigLookup (parsePaymongoSignature headerValue) "te",
     sigLookup (parsePaymongoSignature headerValue) "li"].filterMap id).filter
    (fun c => c != ""))

/-- `verifyPaymongoWebhookSignature`, parameterised by the HMAC-SHA256-hex
primitive (`crypto.createHmac("sha256", secret).update(msg).digest("hex")`),
which we treat as an opaque pure function of the secret and the message.
An unconfigured secret (empty, or containing the "..." placeholder) throws a
500 error; otherwise the function returns false when the timestamp or all
candidates are absent, and compares the hex digest of
`timestamp ++ "." ++ rawBody` against each candidate. -/
def verifyPaymongoWebhookSignature (hmacSha256Hex : String → String → String)
    (webhookSecret rawBody headerValue : String) : Except Err Bool :=
  if webhookSecret == "" || strIncludes webhookSecret "..." then
    .error ⟨"PayMongo webhook secret not configured.", some 500⟩
  else
    let timestamp := sigTimestamp headerValue
    let candidates := sigCandidates headerValue
    if timestamp == "" || candidates.isEmpty then .ok false
    else .ok (candidates.any (fun c => c == hmacSha256Hex webhookSecret (timestamp ++ "." ++ rawBody)))

/-! ## Store rows -/

/-- Row of the `products` table. -/
structure ProductRow where
  id : Nat
  sku : String
  name : String
  category : String
  unit : String
  price : ℤ
  stock_cases : ℤ
  image_url : String
  is_active : Bool
deriving DecidableEq

/-- Row of the `orders` table. -/
structure OrderRow where
  id : Nat
  order_code : String
  user_id : String
  customer_name : String
  contact : String
  address : String
  subtotal : ℤ
  delivery_fee : ℤ
  total : ℤ
  status : String
  payment_status : String
  payment_provider : Option String
  payment_method : String
  paymongo_checkout_session_id : Option String
  paymongo_payment_id : Option String
  paid_at : Option String
deriving DecidableEq

/-- Row of the `order_items` table. -/
structure OrderItemRow where
  order_id : Nat
  product_id : Option Nat
  sku : String
  name : String
  category : String
  unit : String
  image_url : String
  unit_price : ℤ
  qty : ℤ
  line_total : ℤ
deriving DecidableEq

/-- Row of the `order_status_events` table (append-only audit log). -/
structure OrderStatusEventRow where
  order_id : Nat
  status : String
  note : String
  changed_by : Option String
deriving DecidableEq

/-- Row of the `payments` table. -/
structure PaymentRow where
  order_id : Nat
  provider : String
  status : String
  amount : ℤ
  currency : String
  provider_event_id : Option String
  provider_checkout_session_id : Option String
  provider_payment_id : Option String
  raw_payload : Option String
deriving DecidableEq

/-- Row of the `profiles` table (the fields the order paths read). -/
structure ProfileRow where
  user_id : String
  email : String
  role : String
  full_name : String
deriving DecidableEq

/-- The external relational store.  `nextOrderId` models the id the store
assigns to the next inserted order row. -/
structure Store where
  products : List ProductRow
  orders : List OrderRow
  orderItems : List OrderItemRow
  statusEvents : List OrderStatusEventRow
  payments : List PaymentRow
  nextOrderId : Nat
deriving DecidableEq

/-! ## Order creation (`createOrder`) -/

/-- An item of the client checkout payload.  The client may supply a `price`
field alongside `productId` and `qty`; the server never reads it. -/
structure OrderPayloadItem where
  productId : String
  qty : ℤ
  price : ℤ
deriving DecidableEq

/-- The client checkout payload (`POST /api/orders` body). -/
structure OrderPayload where
  customerName : String
  contact : String
  address : String
  paymentMethod : String
  items : List OrderPayloadItem
deriving DecidableEq

/-- A priced line item as built inside the `createOrder` loop, before the
order id is attached. -/
structure PricedItem where
  product_id : Nat
  sku : String
  name : String
  category : String
  unit : String
  image_url : String
  unit_price : ℤ
  qty : ℤ
  line_total : ℤ
deriving DecidableEq

/-- The checkout session returned by the payment gateway
(`paymongoCreateCheckoutSession` response: `checkout?.id`,
`checkout?.attributes?.checkout_url`). -/
structure CheckoutSession where
  id : Option String
  checkout_url : Option String
deriving DecidableEq

/-- Accumulate one payload item into the sku → quantity map (JS `Map` with
insertion order, summing quantities of duplicate skus). -/
def addQty (acc : List (String × ℤ)) (sku : String) (q : ℤ) : List (String × ℤ) :=
  if acc.any (fun kv => kv.1 == sku) then
    acc.map (fun kv => if kv.1 == sku then (kv.1, kv.2 + q) else kv)
  else acc ++ [(sku, q)]

/-- First validation loop of `createOrder`: trim each sku, reject an empty sku
or a non-positive quantity, and merge duplicates. -/
def buildSkuQty (acc : List (String × ℤ)) :
    List OrderPayloadItem → Except Err (List (String × ℤ))
  | [] => .ok acc
  | item :: rest =>
    let sku := jsTrim item.productId
    if sku == "" || item.qty ≤ 0 then .error ⟨"Invalid order item.", none⟩
    else buildSkuQty (addQty acc sku item.qty) rest

/-- JS `new Map(products.map(p => [p.sku, p]))`: the last row with a given sku
wins. -/
def mapLookupLast (ps : List ProductRow) (sku : String) : Option ProductRow :=
  ps.foldl (fun acc p => if p.sku == sku then some p else acc) none

/-- Pricing loop of `createOrder`: for each merged (sku, qty) pair look the
product up, reject missing/inactive products and insufficient stock, and
accumulate the snapshot line items and the subtotal. -/
def priceOrderItems (lookup : String → Option ProductRow) :
    List (String × ℤ) → Except Err (List PricedItem × ℤ)
  | [] => .ok ([], 0)
  | (sku, qty) :: rest =>
    match lookup sku with
    | none => .error ⟨sku ++ " is inactive.", none⟩
    | some p =>
      if !p.is_active then .error ⟨sku ++ " is inactive.", none⟩
      else if p.stock_cases < qty then .error ⟨p.name ++ " has insufficient stock.", none⟩
      else
        match priceOrderItems lookup rest with
        | .error e => .error e
        | .ok (rows, sub) =>
          .ok ({ product_id := p.id, sku := p.sku, name := p.name, category := p.category,
                 unit := p.unit, image_url := p.image_url, unit_price := p.price, qty := qty,
                 line_total := p.price * qty } :: rows, p.price * qty + sub)

/-- Product rows the `getProductsBySkus` query returns for the merged sku
list: the rows of the store whose sku occurs among the requested skus. -/
def candidateProducts (st : Store) (skuQty : List (String × ℤ)) : List ProductRow :=
  st.products.filter (fun p => (skuQty.map (fun kv => kv.1)).contains p.sku)

/-- Normalised payment method of the checkout payload:
`String(payload.paymentMethod || "QRPH").trim()`. -/
def normalizedPaymentMethod (payload : OrderPayload) : String :=
  jsTrim (if payload.paymentMethod == "" then "QRPH" else payload.paymentMethod)

/-- Validation and pricing phase of `createOrder`: everything the source does
before its first write to the store.  Returns the normalised payment method,
the priced line items and the subtotal. -/
def createOrderCore (payload : OrderPayload) (authProfile : ProfileRow) (st : Store) :
    Except Err (String × List PricedItem × ℤ) :=
  let customerName := jsTrim payload.customerName
  let contact := jsTrim payload.contact
  let address := jsTrim payload.address
  let paymentMethod := normalizedPaymentMethod payload
  if authProfile.user_id == "" || customerName == "" || contact == "" || address == "" ||
      payload.items.isEmpty then
    .error ⟨"Missing required order fields.", none⟩
  else
    match buildSkuQty [] payload.items with
    | .error e => .error e
    | .ok skuQty =>
      let products := candidateProducts st skuQty
      if products.length ≠ skuQty.length then
        .error ⟨"Some products were not found in Supabase.", none⟩
      else
        match priceOrderItems (mapLookupLast products) skuQty with
        | .error e => .error e
        | .ok (rows, subtotal) => .ok (paymentMethod, rows, subtotal)

/-- Attach the freshly assigned order id to a priced line item
(`itemRows.map(row => ({ ...row, order_id: order.id }))`). -/
def toItemRow (orderId : Nat) (it : PricedItem) : OrderItemRow :=
  { order_id := orderId, product_id := some it.product_id, sku := it.sku, name := it.name,
    category := it.category, unit := it.unit, image_url := it.image_url,
    unit_price := it.unit_price, qty := it.qty, line_total := it.line_total }

/-- `createOrder` from the source.  `orderCode` stands for the random
`makeOrderCode()`, and `gw` for the outcome of
`paymongoCreateCheckoutSession` (only consulted for QRPH orders; `.error`
models a thrown gateway failure).  The result carries the created order row
(with the checkout-session id patched in when one was returned), the inserted
item rows, and the checkout redirect URL. -/
def createOrder (payload : OrderPayload) (authProfile : ProfileRow) (orderCode : String)
    (gw : Except Err CheckoutSession) (st : Store) :
    Store × Except Err (OrderRow × List OrderItemRow × Option String) :=
  match createOrderCore payload authProfile st with
  | .error e => (st, .error e)
  | .ok (paymentMethod, priced, subtotal) =>
    let deliveryFee : ℤ := if 800 ≤ subtotal then 0 else 60
    let total := subtotal + deliveryFee
    let useQrph := isQrphMethod paymentMethod
    let oid := st.nextOrderId
    let orderRow : OrderRow :=
      { id := oid, order_code := orderCode, user_id := authProfile.user_id,
        customer_name := jsTrim payload.customerName, contact := jsTrim payload.contact,
        address := jsTrim payload.address, subtotal := subtotal, delivery_fee := deliveryFee,
        total := total, status := if useQrph then "pending_payment" else "order_placed",
        payment_status := "pending",
        payment_provider := if useQrph then some "paymongo" else none,
        payment_method := paymentMethod, paymongo_checkout_session_id := none,
        paymongo_payment_id := none, paid_at := none }
    let rows := priced.map (toItemRow oid)
    let st1 : Store :=
      { st with
        orders := st.orders ++ [orderRow],
        orderItems := st.orderItems ++ rows,
        statusEvents := st.statusEvents ++
          [⟨oid, if useQrph then "pending_payment" else "order_placed",
            if useQrph then "Order created. Awaiting QRPH payment."
            else "Order created from web checkout.", none⟩],
        payments := st.payments ++
          [{ order_id := oid, provider := "paymongo", status := "pending", amount := total,
             currency := "PHP", provider_event_id := none,
             provider_checkout_session_id := none, provider_payment_id := none,
             raw_payload := none }],
        nextOrderId := oid + 1 }
    if useQrph then
      match gw with
      | .error e => (st1, .error e)
      | .ok checkout =>
        match checkout.id with
        | some sid =>
          let st2 : Store :=
            { st1 with
              orders := st1.orders.map (fun o =>
                if o.order_code == orderCode then
                  { o with paymongo_checkout_session_id := some sid } else o),
              payments := st1.payments.map (fun r =>
                if r.order_id == oid then
                  { r with provider_checkout_session_id := some sid } else r) }
          (st2, .ok ({ orderRow with paymongo_checkout_session_id := some sid }, rows,
                     checkout.checkout_url))
        | none => (st1, .ok (orderRow, rows, checkout.checkout_url))
    else (st1, .ok (orderRow, rows, none))

/-! ## Status updates (`updateOrderStatus`) -/

/-- `updateOrderStatus` from the source: map the requested label, look the
order up by code, apply the unpaid-QRPH guard, then persist the new status and
append an audit event. -/
def updateOrderStatus (orderCode nextStatusInput : String) (actorProfile : ProfileRow)
    (st : Store) : Store × Except Err OrderRow :=
  let nextStatus := uiStatusToDbStatus nextStatusInput
  if nextStatus == "" then (st, .error ⟨"Invalid status.", none⟩)
  else
    match st.orders.find? (fun o => o.order_code == orderCode) with
    | none => (st, .error ⟨"Order not found.", none⟩)
    | some order =>
      let unpaidQrph := isQrphMethod order.payment_method &&
        jsToLower order.payment_status != "paid"
      if unpaidQrph && !(nextStatus == "pending_payment" || nextStatus == "cancelled") then
        (st, .error ⟨"Cannot move QRPH order status until payment is marked paid.", some 409⟩)
      else
        let st1 : Store :=
          { st with
            orders := st.orders.map (fun o =>
              if o.order_code == orderCode then { o with status := nextStatus } else o),
            statusEvents := st.statusEvents ++
              [⟨order.id, nextStatus,
                "Status updated to " ++ toUiStatus nextStatus ++ " by " ++
                  actorProfile.role ++ ".", some actorProfile.user_id⟩] }
        (st1, .ok { order with status := nextStatus })

/-! ## Webhook payment confirmation (`markOrderPaidFromWebhook`) -/

/-- `findOrderByCode`. -/
def findOrderByCode (orderCode : String) (st : Store) : Option OrderRow :=
  st.orders.find? (fun o => o.order_code == orderCode)

/-- `findOrderByCheckoutSessionId` (returns nothing for an absent id). -/
def findOrderByCheckoutSessionId (checkoutSessionId : Option String) (st : Store) :
    Option OrderRow :=
  match checkoutSessionId with
  | none => none
  | some cs => st.orders.find? (fun o => o.paymongo_checkout_session_id == some cs)

/-- Order resolution of the webhook handler:
`(orderCode ? findOrderByCode(orderCode) : null) || findOrderByCheckoutSessionId(...)`. -/
def resolveWebhookOrder (orderCode checkoutSessionId : Option String) (st : Store) :
    Option OrderRow :=
  (match orderCode with
   | some c => findOrderByCode c st
   | none => none).orElse
    (fun _ => findOrderByCheckoutSessionId checkoutSessionId st)

/-- `hasOrderStatusEventNote`: does the audit log hold an event for this order
with exactly this note? -/
def hasOrderStatusEventNote (orderId : Nat) (note : String) (st : Store) : Bool :=
  st.statusEvents.any (fun e => e.order_id == orderId && e.note == note)

/-- One iteration of the `deductStockForOrder` loop: read the first product row
with the item product id and floor the deducted stock at zero. -/
def applyWebhookStockItem (st : Store) (item : OrderItemRow) : Store :=
  match item.product_id with
  | none => st
  | some pid =>
    match st.products.find? (fun p => p.id == pid) with
    | none => st
    | some product =>
      let next : ℤ := max 0 (product.stock_cases - item.qty)
      { st with products := st.products.map (fun q =>
          if q.id == pid then { q with stock_cases := next } else q) }

/-- `deductStockForOrder`: fetch the order items, keep those with a truthy
product id and a positive quantity, and deduct each in turn. -/
def deductStockForOrder (orderId : Nat) (st : Store) : Store :=
  let items := st.orderItems.filter (fun i => i.order_id == orderId)
  let validItems := items.filter (fun i => i.product_id.getD 0 != 0 && 0 < i.qty)
  validItems.foldl applyWebhookStockItem st

/-- Marker note guarding the stock deduction. -/
def stockMarkerNote : String := "QRPH payment confirmed via PayMongo webhook. Stock deducted."

/-- `markOrderPaidFromWebhook`.  `now` stands for `new Date().toISOString()`;
the returned boolean is the `duplicate` flag of the source result. -/
def markOrderPaidFromWebhook (now : String) (orderCode checkoutSessionId paymentId : Option String)
    (eventId rawPayload : String) (st : Store) : Store × Except Err Bool :=
  if st.payments.any (fun r => r.provider_event_id == some eventId) then
    (st, .ok true)
  else
    match resolveWebhookOrder orderCode checkoutSessionId st with
    | none => (st, .error ⟨"Order not found for webhook.", none⟩)
    | some order =>
      let st1 : Store :=
        { st with
          orders := st.orders.map (fun o =>
            if o.id == order.id then
              { o with
                payment_status := "paid", status := "order_placed",
                paid_at := some now,
                paymongo_checkout_session_id :=
                  checkoutSessionId.orElse (fun _ => order.paymongo_checkout_session_id),
                paymongo_payment_id := paymentId }
            else o) }
      let st2 :=
        if hasOrderStatusEventNote order.id stockMarkerNote st1 then st1
        else
          let std := deductStockForOrder order.id st1
          { std with statusEvents := std.statusEvents ++
              [⟨order.id, "order_placed", stockMarkerNote, none⟩] }
      let st3 : Store :=
        { st2 with payments := st2.payments.map (fun r =>
            if r.order_id == order.id then
              { r with
                status := "paid", provider_event_id := some eventId,
                provider_checkout_session_id := checkoutSessionId,
                provider_payment_id := paymentId, raw_payload := some rawPayload }
            else r) }
      let st4 : Store :=
        { st3 with statusEvents := st3.statusEvents ++
            [⟨order.id, "order_placed", "QRPH payment confirmed via PayMongo webhook.", none⟩] }
      (st4, .ok false)

/-- Client-side delivery-fee formula of `computeCartTotals` in `app.js`
(the page rendering the cart), kept for comparison with the server formula in
`createOrder`. -/
def clientDeliveryFee (subtotal : ℤ) : ℤ :=
  if 800 ≤ subtotal then 0 else if subtotal == 0 then 0 else 60

/-! ## Small utilities used by the theorem statements -/

/-- Decidable equality for results, so that witnesses can be checked by
`decide`. -/
instance exceptDecEq {ε α : Type} [DecidableEq ε] [DecidableEq α] :
    DecidableEq (Except ε α) := fun a b =>
  match a, b with
  | .ok x, .ok y =>
    if h : x = y then isTrue (by rw [h]) else isFalse (fun hh => h (Except.ok.inj hh))
  | .error x, .error y =>
    if h : x = y then isTrue (by rw [h]) else isFalse (fun hh => h (Except.error.inj hh))
  | .ok _, .error _ => isFalse (fun hh => Except.noConfusion hh)
  | .error _, .ok _ => isFalse (fun hh => Except.noConfusion hh)

/-- The payload of a successful result. -/
def okValue {α : Type} : Except Err α → Option α
  | .ok a => some a
  | .error _ => none

/-- Did the computation throw? -/
def isErrResult {α : Type} : Except Err α → Bool
  | .ok _ => false
  | .error _ => true

/-- Status chain exactly as the specification words it (modelled from the
spec, for comparison with the code): each status is reachable only from its
immediate predecessor. -/
def specChainNext : String → Option String
  | "pending_payment" => some "order_placed"
  | "order_placed" => some "preparing"
  | "preparing" => some "in_transit"
  | "in_transit" => some "out_for_delivery"
  | "out_for_delivery" => some "delivered"
  | _ => none

/-- Legal transition according to the specification (modelled from the spec):
one step along the chain, or cancellation from a non-terminal state. -/
def specLegalTransition (fromStatus toStatus : String) : Bool :=
  specChainNext fromStatus == some toStatus ||
  (toStatus == "cancelled" && fromStatus != "delivered" && fromStatus != "cancelled")

/-! ## Concrete fixtures for witnesses and counterexamples -/

/-- An admin actor. -/
def adminProfile : ProfileRow :=
  { user_id := "admin-1", email := "admin@jazjo.test", role := "admin", full_name := "Admin" }

/-- A customer requester. -/
def buyerProfile : ProfileRow :=
  { user_id := "user-1", email := "buyer@jazjo.test", role := "customer", full_name := "Buyer" }

/-- A QRPH order awaiting payment. -/
def qrphUnpaidOrder : OrderRow :=
  { id := 1, order_code := "ORD-20250101-101", user_id := "user-1", customer_name := "Ana",
    contact := "0917", address := "Manila", subtotal := 110, delivery_fee := 60, total := 170,
    status := "pending_payment", payment_status := "pending",
    payment_provider := some "paymongo", payment_method := "QRPH",
    paymongo_checkout_session_id := some "cs_w2", paymongo_payment_id := none, paid_at := none }

/-- Store holding only the unpaid QRPH order. -/
def stGuard : Store :=
  { products := [], orders := [qrphUnpaidOrder], orderItems := [], statusEvents := [],
    payments := [], nextOrderId := 2 }

/-- A delivered cash-on-delivery order (terminal state per the spec chain). -/
def deliveredOrder : OrderRow :=
  { id := 1, order_code := "ORD-20250101-102", user_id := "user-1", customer_name := "Ana",
    contact := "0917", address := "Manila", subtotal := 110, delivery_fee := 60, total := 170,
    status := "delivered", payment_status := "paid", payment_provider := none,
    payment_method := "COD", paymongo_checkout_session_id := none,
    paymongo_payment_id := none, paid_at := none }

/-- Store holding only the delivered order. -/
def stDelivered : Store :=
  { products := [], orders := [deliveredOrder], orderItems := [], statusEvents := [],
    payments := [], nextOrderId := 2 }

/-! ## C2: the unpaid-QRPH transition guard -/

/-- C2: for every stored order whose payment method is a QRPH (asynchronous)
method and whose payment status is not "paid", `updateOrderStatus` rejects
every valid requested target status other than PendingPayment or Cancelled
with the distinguishable 409 "payment not confirmed" error, and leaves the
store untouched: no status write and no audit-event append happen. -/
theorem updateOrderStatus_unpaid_qrph_guard
    (st : Store) (orderCode target : String) (actor : ProfileRow) (order : OrderRow)
    (hfind : st.orders.find? (fun o => o.order_code == orderCode) = some order)
    (hq : isQrphMethod order.payment_method = true)
    (hp : jsToLower order.payment_status ≠ "paid")
    (hvalid : uiStatusToDbStatus target ≠ "")
    (hother : uiStatusToDbStatus target ≠ "pending_payment" ∧
      uiStatusToDbStatus target ≠ "cancelled") :
    updateOrderStatus orderCode target actor st =
      (st, .error ⟨"Cannot move QRPH order status until payment is marked paid.", some 409⟩) := by
  unfold updateOrderStatus
  have h1 : (uiStatusToDbStatus target == "") = false := by
    simpa using hvalid
  have h2 : (jsToLower order.payment_status != "paid") = true := by
    simpa using hp
  have h3 : (uiStatusToDbStatus target == "pending_payment") = false := by
    simpa using hother.1
  have h4 : (uiStatusToDbStatus target == "cancelled") = false := by
    simpa using hother.2
  simp [h1, hfind, hq, h2, h3, h4]

/-- Witness for C2 at a concrete store. -/
theorem updateOrderStatus_unpaid_qrph_guard_witness :
    updateOrderStatus "ORD-20250101-101" "Preparing" adminProfile stGuard =
      (stGuard,
       .error ⟨"Cannot move QRPH order status until payment is marked paid.", some 409⟩) :=
  updateOrderStatus_unpaid_qrph_guard stGuard "ORD-20250101-101" "Preparing" adminProfile
    qrphUnpaidOrder (by decide) (by decide) (by decide) (by decide) (by decide)

/-! ## C3: the linear status chain is not enforced by the code -/

/-- C3 counterexample: `updateOrderStatus` happily moves a delivered
cash-on-delivery order back to "preparing": the call succeeds, the earlier
status "delivered" is overwritten with "preparing", even though that
transition is neither a chain step nor a cancellation according to the
specification chain. -/
theorem updateOrderStatus_chain_not_enforced_cex :
    ((stDelivered.orders.find? (fun o => o.order_code == "ORD-20250101-102")).map
      (fun o => o.status) = some "delivered") ∧
    (okValue (updateOrderStatus "ORD-20250101-102" "Preparing" adminProfile stDelivered).2).map
      (fun o => o.status) = some "preparing" ∧
    (((updateOrderStatus "ORD-20250101-102" "Preparing" adminProfile stDelivered).1.orders.find?
        (fun o => o.order_code == "ORD-20250101-102")).map (fun o => o.status) =
      some "preparing") ∧
    specLegalTransition "delivered" "preparing" = false := by decide

/-- C3 amended: a successful `updateOrderStatus` call persists exactly the
mapped requested status, whatever the current status of the order is: the code
never compares the requested status with the current one, so the chain of the
specification is not enforced; the only restriction on a successful transition
is the unpaid-QRPH guard. -/
theorem updateOrderStatus_persists_requested
    (st : Store) (orderCode target : String) (actor : ProfileRow) (st' : Store) (o' : OrderRow)
    (h : updateOrderStatus orderCode target actor st = (st', .ok o')) :
    o'.status = uiStatusToDbStatus target ∧
    (∀ r ∈ st'.orders, r.order_code = orderCode → r.status = uiStatusToDbStatus target) ∧
    ((st.orders.find? (fun o => o.order_code == orderCode)).elim True (fun order =>
      isQrphMethod order.payment_method = true → jsToLower order.payment_status ≠ "paid" →
      (uiStatusToDbStatus target = "pending_payment" ∨
       uiStatusToDbStatus target = "cancelled"))) := by
  unfold updateOrderStatus at h
  by_cases h1 : uiStatusToDbStatus target = ""
  · rw [if_pos (by simp [h1])] at h
    exact absurd (congrArg Prod.snd h) (by simp)
  · rw [if_neg (by simp [h1])] at h
    cases hfind : st.orders.find? (fun o => o.order_code == orderCode) with
    | none =>
      rw [hfind] at h
      exact absurd (congrArg Prod.snd h) (by simp)
    | some order =>
      rw [hfind] at h
      simp only at h
      split at h
      · exact absurd (congrArg Prod.snd h) (by simp)
      next hg =>
        injection h with hst ho
        injection ho with ho'
        refine ⟨by rw [← ho'], ?_, ?_⟩
        · intro r hr hrc
          rw [← hst] at hr
          simp only [List.mem_map] at hr
          obtain ⟨o0, ho0, rfl⟩ := hr
          by_cases hoc : (o0.order_code == orderCode) = true
          · simp [hoc]
          · simp only [hoc, Bool.false_eq_true, if_false] at hrc ⊢
            exact absurd (by simpa using hrc) (by simpa using hoc)
        · simp only [hfind, Option.elim]
          intro hq hp
          by_cases hc : uiStatusToDbStatus target = "pending_payment"
          · exact Or.inl hc
          by_cases hd : uiStatusToDbStatus target = "cancelled"
          · exact Or.inr hd
          exact absurd (by simp [hq, bne_iff_ne, hp, hc, hd]) hg

/-- Witness for the amended C3 at a concrete store: moving the delivered order
back to "preparing". -/
theorem updateOrderStatus_persists_requested_witness :
    ({ deliveredOrder with status := "preparing" } : OrderRow).status =
      uiStatusToDbStatus "Preparing" ∧
    (∀ r ∈ ((updateOrderStatus "ORD-20250101-102" "Preparing" adminProfile stDelivered).1).orders,
      r.order_code = "ORD-20250101-102" → r.status = uiStatusToDbStatus "Preparing") ∧
    ((stDelivered.orders.find? (fun o => o.order_code == "ORD-20250101-102")).elim True
      (fun order =>
        isQrphMethod order.payment_method = true → jsToLower order.payment_status ≠ "paid" →
        (uiStatusToDbStatus "Preparing" = "pending_payment" ∨
         uiStatusToDbStatus "Preparing" = "cancelled"))) :=
  updateOrderStatus_persists_requested stDelivered "ORD-20250101-102" "Preparing" adminProfile
    ((updateOrderStatus "ORD-20250101-102" "Preparing" adminProfile stDelivered).1)
    { deliveredOrder with status := "preparing" } (by decide)

/-! ## C4: webhook signature verification -/

/-- A concrete stand-in for the HMAC-SHA256-hex primitive, used to instantiate
the parameterised theorems on concrete inputs. -/
def hmacStub (secret msg : String) : String := secret ++ "|" ++ msg

/-- C4 counterexample: with the shared webhook secret not configured (empty),
`verifyPaymongoWebhookSignature` does not return false as the claim states: it
throws the 500 "PayMongo webhook secret not configured." error. -/
theorem verifyPaymongoWebhookSignature_unconfigured_cex :
    verifyPaymongoWebhookSignature hmacStub "" "body" "t=123,te=x" =
      .error ⟨"PayMongo webhook secret not configured.", some 500⟩ ∧
    verifyPaymongoWebhookSignature hmacStub "" "body" "t=123,te=x" ≠ .ok false := by decide

/-- C4 amended: when the shared webhook secret is configured (nonempty and not
a placeholder), the verifier returns true exactly when the supplied header
carries a timestamp and the HMAC-SHA256 hex digest of
`timestamp ++ "." ++ rawBody` equals one of the candidate signatures (te or
li), and returns false when the timestamp or both candidates are absent; when
the secret is not configured the function does not return false but throws a
500 error (see the counterexample). -/
theorem verifyPaymongoWebhookSignature_characterization
    (hmac : String → String → String) (secret rawBody header : String)
    (hconf : secret ≠ "" ∧ strIncludes secret "..." = false) :
    (verifyPaymongoWebhookSignature hmac secret rawBody header = .ok true ↔
      (sigTimestamp header ≠ "" ∧
        hmac secret (sigTimestamp header ++ "." ++ rawBody) ∈ sigCandidates header)) ∧
    ((sigTimestamp header = "" ∨ sigCandidates header = []) →
      verifyPaymongoWebhookSignature hmac secret rawBody header = .ok false) := by
  unfold verifyPaymongoWebhookSignature
  rw [if_neg (by simp [hconf.1, hconf.2])]
  by_cases ht : sigTimestamp header = ""
  · rw [if_pos (by simp [ht])]
    refine ⟨⟨fun hh => absurd hh (by simp), fun hh => absurd ht hh.1⟩, fun _ => rfl⟩
  · by_cases hc : sigCandidates header = []
    · rw [if_pos (by simp [hc])]
      refine ⟨⟨fun hh => absurd hh (by simp), ?_⟩, fun _ => rfl⟩
      rintro ⟨_, hm⟩
      rw [hc] at hm
      exact absurd hm (List.not_mem_nil _)
    · rw [if_neg (by simp [ht, hc])]
      refine ⟨⟨?_, ?_⟩, ?_⟩
      · intro hh
        have hany := Except.ok.inj hh
        rw [List.any_eq_true] at hany
        obtain ⟨c, hcm, hce⟩ := hany
        rw [beq_iff_eq] at hce
        exact ⟨ht, hce ▸ hcm⟩
      · rintro ⟨_, hm⟩
        have : (sigCandidates header).any
            (fun c => c == hmac secret (sigTimestamp header ++ "." ++ rawBody)) = true := by
          rw [List.any_eq_true]
          exact ⟨_, hm, by simp⟩
        rw [this]
      · rintro (hh | hh)
        · exact absurd hh ht
        · exact absurd hh hc

/-- Witness for the amended C4 at a concrete secret, body and header. -/
theorem verifyPaymongoWebhookSignature_characterization_witness :
    ((verifyPaymongoWebhookSignature hmacStub "sec" "body" "t=123,te=sec|123.body" = .ok true ↔
      (sigTimestamp "t=123,te=sec|123.body" ≠ "" ∧
        hmacStub "sec" (sigTimestamp "t=123,te=sec|123.body" ++ "." ++ "body") ∈
          sigCandidates "t=123,te=sec|123.body")) ∧
     ((sigTimestamp "t=123,te=sec|123.body" = "" ∨
       sigCandidates "t=123,te=sec|123.body" = []) →
      verifyPaymongoWebhookSignature hmacStub "sec" "body" "t=123,te=sec|123.body" =
        .ok false)) :=
  verifyPaymongoWebhookSignature_characterization hmacStub "sec" "body" "t=123,te=sec|123.body"
    ⟨by decide, by decide⟩

/-! ## Inversion of a successful `createOrder` -/

/-- A successful `createOrder` run stems from a successful validation phase,
and the returned order row carries exactly the amounts, method and initial
status computed there. -/
theorem createOrder_ok_inv
    {payload : OrderPayload} {prof : ProfileRow} {code : String}
    {gw : Except Err CheckoutSession} {st st' : Store} {o : OrderRow}
    {rows : List OrderItemRow} {url : Option String}
    (h : createOrder payload prof code gw st = (st', .ok (o, rows, url))) :
    ∃ pm priced subtotal, createOrderCore payload prof st = .ok (pm, priced, subtotal) ∧
      o.payment_method = pm ∧
      o.subtotal = subtotal ∧
      o.delivery_fee = (if 800 ≤ subtotal then (0 : ℤ) else 60) ∧
      o.total = subtotal + (if 800 ≤ subtotal then (0 : ℤ) else 60) ∧
      o.status = (if isQrphMethod pm then "pending_payment" else "order_placed") ∧
      rows = priced.map (toItemRow st.nextOrderId) := by
  unfold createOrder at h
  cases hcore : createOrderCore payload prof st with
  | error e =>
    rw [hcore] at h
    exact absurd (congrArg Prod.snd h) (by simp)
  | ok v =>
    obtain ⟨pm, priced, subtotal⟩ := v
    rw [hcore] at h
    simp only at h
    refine ⟨pm, priced, subtotal, rfl, ?_⟩
    split at h
    case isTrue hq =>
      -- QRPH branch: the gateway call and the optional session patch
      cases hgw : gw with
      | error e =>
        rw [hgw] at h
        exact absurd (congrArg Prod.snd h) (by simp)
      | ok checkout =>
        rw [hgw] at h
        simp only at h
        cases hcid : checkout.id with
        | some sid =>
          rw [hcid] at h
          injection h with h1 h2
          injection h2 with h3
          injection h3 with hA hB
          injection hB with hC hD
          subst hA hC hD
          exact ⟨rfl, rfl, rfl, rfl, by simp [hq], rfl⟩
        | none =>
          rw [hcid] at h
          injection h with h1 h2
          injection h2 with h3
          injection h3 with hA hB
          injection hB with hC hD
          subst hA hC hD
          exact ⟨rfl, rfl, rfl, rfl, by simp [hq], rfl⟩
    case isFalse hq =>
      -- non-QRPH branch
      injection h with h1 h2
      injection h2 with h3
      injection h3 with hA hB
      injection hB with hC hD
      subst hA hC hD
      exact ⟨rfl, rfl, rfl, rfl, by simp [hq], rfl⟩

/-! ## C5: the delivery-fee step function of `createOrder` -/

/-- A product priced at zero (prices are nonnegative but not necessarily
positive). -/
def freeProduct : ProductRow :=
  { id := 5, sku := "FREE", name := "Free sample", category := "Promo", unit := "Piece",
    price := 0, stock_cases := 5, image_url := "", is_active := true }

/-- Catalog holding only the zero-priced product. -/
def stFree : Store :=
  { products := [freeProduct], orders := [], orderItems := [], statusEvents := [],
    payments := [], nextOrderId := 1 }

/-- Checkout payload ordering one unit of the zero-priced product with a
cash-on-delivery method. -/
def freePayload : OrderPayload :=
  { customerName := "Ana", contact := "0917", address := "Manila", paymentMethod := "COD",
    items := [{ productId := "FREE", qty := 1, price := 0 }] }

/-- C5 counterexample: an order whose subtotal is zero is created with a
delivery fee of 60, not 0: the server formula in `createOrder` is
`subtotal >= 800 ? 0 : 60` with no zero case (the zero case exists only in the
client-side `computeCartTotals`). -/
theorem createOrder_fee_at_zero_subtotal_cex :
    (okValue (createOrder freePayload buyerProfile "ORD-20250101-103"
        (.ok ⟨none, none⟩) stFree).2).map (fun x => (x.1.subtotal, x.1.delivery_fee)) =
      some (0, 60) ∧ clientDeliveryFee 0 = 0 := by decide

/-- C5 amended: for every created order the delivery fee is 0 when the
subtotal is at least 800 and 60 otherwise — including a zero subtotal, where
the fee is 60; only the client-side cart display (`clientDeliveryFee`) maps a
zero subtotal to a zero fee. -/
theorem createOrder_fee_step
    (payload : OrderPayload) (prof : ProfileRow) (code : String)
    (gw : Except Err CheckoutSession) (st st' : Store) (o : OrderRow)
    (rows : List OrderItemRow) (url : Option String)
    (h : createOrder payload prof code gw st = (st', .ok (o, rows, url))) :
    o.delivery_fee = (if 800 ≤ o.subtotal then (0 : ℤ) else 60) ∧
    clientDeliveryFee 0 = 0 := by
  obtain ⟨pm, priced, subtotal, hcore, hpm, hsub, hfee, htot, hstat, hrows⟩ :=
    createOrder_ok_inv h
  exact ⟨by rw [hfee, hsub], by decide⟩

/-! ## C8: the initial status of a created order -/

/-- C8: the created order starts in "pending_payment" exactly when its payment
method is a QRPH (asynchronous) method, and in "order_placed" for every other
method. -/
theorem createOrder_initial_status
    (payload : OrderPayload) (prof : ProfileRow) (code : String)
    (gw : Except Err CheckoutSession) (st st' : Store) (o : OrderRow)
    (rows : List OrderItemRow) (url : Option String)
    (h : createOrder payload prof code gw st = (st', .ok (o, rows, url))) :
    (o.status = "pending_payment" ↔ isQrphMethod o.payment_method = true) ∧
    (isQrphMethod o.payment_method = false → o.status = "order_placed") := by
  obtain ⟨pm, priced, subtotal, hcore, hpm, hsub, hfee, htot, hstat, hrows⟩ :=
    createOrder_ok_inv h
  rw [hstat, hpm]
  cases hq : isQrphMethod pm with
  | true => simp
  | false =>
    simp only [Bool.false_eq_true, if_false]
    exact ⟨by decide, fun _ => by trivial⟩

/-! ## Fixtures for the `createOrder` witnesses -/

/-- A catalog product. -/
def colaProduct : ProductRow :=
  { id := 1, sku := "P001", name := "Cola 1.5L", category := "Softdrinks", unit := "Bottle",
    price := 55, stock_cases := 25, image_url := "", is_active := true }

/-- Store holding only the catalog product. -/
def stCatalog : Store :=
  { products := [colaProduct], orders := [], orderItems := [], statusEvents := [],
    payments := [], nextOrderId := 1 }

/-- A cash-on-delivery checkout payload for two units of the product; the
client-supplied price field is deliberately wrong (999). -/
def codPayload : OrderPayload :=
  { customerName := "Ana", contact := "0917", address := "Manila", paymentMethod := "COD",
    items := [{ productId := "P001", qty := 2, price := 999 }] }

/-- The order row `createOrder` produces for `codPayload` on `stCatalog`. -/
def codOrderRow : OrderRow :=
  { id := 1, order_code := "ORD-20250101-104", user_id := "user-1", customer_name := "Ana",
    contact := "0917", address := "Manila", subtotal := 110, delivery_fee := 60, total := 170,
    status := "order_placed", payment_status := "pending", payment_provider := none,
    payment_method := "COD", paymongo_checkout_session_id := none,
    paymongo_payment_id := none, paid_at := none }

/-- The order-item row `createOrder` produces for `codPayload` on `stCatalog`. -/
def codItemRow : OrderItemRow :=
  { order_id := 1, product_id := some 1, sku := "P001", name := "Cola 1.5L",
    category := "Softdrinks", unit := "Bottle", image_url := "", unit_price := 55, qty := 2,
    line_total := 110 }

/-- The store after the `codPayload` order is created. -/
def stAfterCod : Store :=
  { products := [colaProduct], orders := [codOrderRow], orderItems := [codItemRow],
    statusEvents := [⟨1, "order_placed", "Order created from web checkout.", none⟩],
    payments := [⟨1, "paymongo", "pending", 170, "PHP", none, none, none, none⟩],
    nextOrderId := 2 }

/-- Witness for the amended C5 on a concrete created order. -/
theorem createOrder_fee_step_witness :
    codOrderRow.delivery_fee = (if 800 ≤ codOrderRow.subtotal then (0 : ℤ) else 60) ∧
    clientDeliveryFee 0 = 0 :=
  createOrder_fee_step codPayload buyerProfile "ORD-20250101-104" (.ok ⟨none, none⟩)
    stCatalog stAfterCod codOrderRow [codItemRow] none (by decide)

/-- Witness for C8 on a concrete created order. -/
theorem createOrder_initial_status_witness :
    (codOrderRow.status = "pending_payment" ↔ isQrphMethod codOrderRow.payment_method = true) ∧
    (isQrphMethod codOrderRow.payment_method = false → codOrderRow.status = "order_placed") :=
  createOrder_initial_status codPayload buyerProfile "ORD-20250101-104" (.ok ⟨none, none⟩)
    stCatalog stAfterCod codOrderRow [codItemRow] none (by decide)


/-! ## Effect skeleton of the stock deduction -/

/-- One stock-deduction step touches only the products table. -/
theorem applyWebhookStockItem_skeleton (st : Store) (item : OrderItemRow) :
    (applyWebhookStockItem st item).orders = st.orders ∧
    (applyWebhookStockItem st item).orderItems = st.orderItems ∧
    (applyWebhookStockItem st item).statusEvents = st.statusEvents ∧
    (applyWebhookStockItem st item).payments = st.payments ∧
    (applyWebhookStockItem st item).nextOrderId = st.nextOrderId := by
  rcases hpid : item.product_id with _ | pid
  · simp [applyWebhookStockItem, hpid]
  · rcases hfind : st.products.find? (fun p => p.id == pid) with _ | product
    · simp [applyWebhookStockItem, hpid, hfind]
    · simp [applyWebhookStockItem, hpid, hfind]

/-- Folding stock-deduction steps touches only the products table. -/
theorem foldl_applyWebhookStockItem_skeleton (items : List OrderItemRow) (st : Store) :
    ((items.foldl applyWebhookStockItem st).orders = st.orders ∧
     (items.foldl applyWebhookStockItem st).orderItems = st.orderItems ∧
     (items.foldl applyWebhookStockItem st).statusEvents = st.statusEvents ∧
     (items.foldl applyWebhookStockItem st).payments = st.payments ∧
     (items.foldl applyWebhookStockItem st).nextOrderId = st.nextOrderId) := by
  induction items generalizing st with
  | nil => exact ⟨rfl, rfl, rfl, rfl, rfl⟩
  | cons i rest ih =>
    simp only [List.foldl_cons]
    obtain ⟨h1, h2, h3, h4, h5⟩ := applyWebhookStockItem_skeleton st i
    obtain ⟨g1, g2, g3, g4, g5⟩ := ih (applyWebhookStockItem st i)
    exact ⟨g1.trans h1, g2.trans h2, g3.trans h3, g4.trans h4, g5.trans h5⟩

/-- `deductStockForOrder` touches only the products table. -/
theorem deductStockForOrder_skeleton (orderId : Nat) (st : Store) :
    (deductStockForOrder orderId st).orders = st.orders ∧
    (deductStockForOrder orderId st).orderItems = st.orderItems ∧
    (deductStockForOrder orderId st).statusEvents = st.statusEvents ∧
    (deductStockForOrder orderId st).payments = st.payments ∧
    (deductStockForOrder orderId st).nextOrderId = st.nextOrderId := by
  unfold deductStockForOrder
  exact foldl_applyWebhookStockItem_skeleton _ st

/-- One stock-deduction step keeps every stock level nonnegative. -/
theorem applyWebhookStockItem_nonneg (st : Store) (item : OrderItemRow)
    (h : ∀ p ∈ st.products, 0 ≤ p.stock_cases) :
    ∀ p ∈ (applyWebhookStockItem st item).products, 0 ≤ p.stock_cases := by
  rcases hpid : item.product_id with _ | pid
  · simpa [applyWebhookStockItem, hpid] using h
  · rcases hfind : st.products.find? (fun p => p.id == pid) with _ | product
    · simpa [applyWebhookStockItem, hpid, hfind] using h
    · intro p hp
      simp only [applyWebhookStockItem, hpid, hfind, List.mem_map] at hp
      obtain ⟨q, hq, rfl⟩ := hp
      by_cases hid : (q.id == pid) = true
      · simp only [hid, if_true]
        exact le_max_left 0 _
      · simp only [hid, Bool.false_eq_true, if_false]
        exact h q hq

/-- Folded stock deduction keeps every stock level nonnegative. -/
theorem foldl_applyWebhookStockItem_nonneg (items : List OrderItemRow) (st : Store)
    (h : ∀ p ∈ st.products, 0 ≤ p.stock_cases) :
    ∀ p ∈ (items.foldl applyWebhookStockItem st).products, 0 ≤ p.stock_cases := by
  induction items generalizing st with
  | nil => exact h
  | cons i rest ih =>
    simp only [List.foldl_cons]
    exact ih (applyWebhookStockItem st i) (applyWebhookStockItem_nonneg st i h)

/-! ## C6: the stock floor -/

/-- C6: during webhook stock deduction, deducting an item quantity q from the
product row with stock s writes back exactly `max 0 (s - q)`, a value that is
never negative; consequently `deductStockForOrder` keeps every stock level of
the store nonnegative. -/
theorem deductStock_stock_floor
    (st : Store) (orderId : Nat) (item : OrderItemRow) (pid : Nat) (product : ProductRow)
    (hpid : item.product_id = some pid)
    (hfind : st.products.find? (fun p => p.id == pid) = some product) :
    (∀ q ∈ (applyWebhookStockItem st item).products, q.id = pid →
      q.stock_cases = max 0 (product.stock_cases - item.qty)) ∧
    0 ≤ max (0 : ℤ) (product.stock_cases - item.qty) ∧
    ((∀ p ∈ st.products, 0 ≤ p.stock_cases) →
      ∀ p ∈ (deductStockForOrder orderId st).products, 0 ≤ p.stock_cases) := by
  refine ⟨?_, le_max_left 0 _, ?_⟩
  · intro q hq hqid
    simp only [applyWebhookStockItem, hpid, hfind, List.mem_map] at hq
    obtain ⟨q0, hq0, rfl⟩ := hq
    by_cases hid : (q0.id == pid) = true
    · simp only [hid, if_true]
    · simp only [hid, Bool.false_eq_true, if_false] at hqid ⊢
      exact absurd (by simpa using hqid) (by simpa using hid)
  · intro h
    unfold deductStockForOrder
    exact foldl_applyWebhookStockItem_nonneg _ st h

/-- An order-item row used to exercise the stock floor. -/
def bigQtyItemRow : OrderItemRow :=
  { order_id := 9, product_id := some 1, sku := "P001", name := "Cola 1.5L",
    category := "Softdrinks", unit := "Bottle", image_url := "", unit_price := 55, qty := 40,
    line_total := 2200 }

/-- Store with one product (stock 25) and one order item demanding 40. -/
def stOverdraw : Store :=
  { products := [colaProduct], orders := [], orderItems := [bigQtyItemRow],
    statusEvents := [], payments := [], nextOrderId := 2 }

/-- Witness for C6: deducting 40 from stock 25 floors at zero. -/
theorem deductStock_stock_floor_witness :
    (∀ q ∈ (applyWebhookStockItem stOverdraw bigQtyItemRow).products, q.id = 1 →
      q.stock_cases = max 0 (colaProduct.stock_cases - bigQtyItemRow.qty)) ∧
    0 ≤ max (0 : ℤ) (colaProduct.stock_cases - bigQtyItemRow.qty) ∧
    ((∀ p ∈ stOverdraw.products, 0 ≤ p.stock_cases) →
      ∀ p ∈ (deductStockForOrder 9 stOverdraw).products, 0 ≤ p.stock_cases) :=
  deductStock_stock_floor stOverdraw 9 bigQtyItemRow 1 colaProduct (by decide) (by decide)

/-! ## Characterisation of a fresh (non-duplicate) webhook confirmation -/

/-- A run of `markOrderPaidFromWebhook` whose gateway event id is fresh and
whose order resolves reports a non-duplicate, patches the resolved order row to
paid/order_placed, and stamps the event id on every payment row of the order. -/
theorem markOrderPaidFromWebhook_run
    (st : Store) (orderCode checkoutSessionId paymentId : Option String)
    (eventId rawPayload now : String) (order : OrderRow)
    (hfresh : st.payments.any (fun r => r.provider_event_id == some eventId) = false)
    (hres : resolveWebhookOrder orderCode checkoutSessionId st = some order) :
    ∃ st4 : Store,
      markOrderPaidFromWebhook now orderCode checkoutSessionId paymentId eventId rawPayload st =
        (st4, .ok false) ∧
      st4.orders = st.orders.map (fun o =>
        if o.id == order.id then
          { o with
            payment_status := "paid", status := "order_placed", paid_at := some now,
            paymongo_checkout_session_id :=
              checkoutSessionId.orElse (fun _ => order.paymongo_checkout_session_id),
            paymongo_payment_id := paymentId }
        else o) ∧
      st4.payments = st.payments.map (fun r =>
        if r.order_id == order.id then
          { r with
            status := "paid", provider_event_id := some eventId,
            provider_checkout_session_id := checkoutSessionId,
            provider_payment_id := paymentId, raw_payload := some rawPayload }
        else r) := by
  unfold markOrderPaidFromWebhook
  simp only [hfresh, Bool.false_eq_true, if_false, hres]
  refine ⟨_, rfl, ?_, ?_⟩
  · split
    · rfl
    · rw [(deductStockForOrder_skeleton order.id _).1]
  · split
    · rfl
    · rw [(deductStockForOrder_skeleton order.id _).2.2.2.1]

/-! ## C10: a fresh webhook confirmation overwrites the order status -/

/-- C10: for a fresh (non-duplicate) gateway event whose order resolves,
`markOrderPaidFromWebhook` unconditionally writes status "order_placed" to the
resolved order, whatever status the order currently has — so a late or
re-keyed webhook regresses an already advanced order back to OrderPlaced. -/
theorem markOrderPaidFromWebhook_overwrites_status
    (st : Store) (orderCode checkoutSessionId paymentId : Option String)
    (eventId rawPayload now : String) (order : OrderRow)
    (hfresh : st.payments.any (fun r => r.provider_event_id == some eventId) = false)
    (hres : resolveWebhookOrder orderCode checkoutSessionId st = some order) :
    (markOrderPaidFromWebhook now orderCode checkoutSessionId paymentId eventId
        rawPayload st).2 = .ok false ∧
    ∀ r ∈ (markOrderPaidFromWebhook now orderCode checkoutSessionId paymentId eventId
        rawPayload st).1.orders, r.id = order.id → r.status = "order_placed" := by
  obtain ⟨st4, hrun, horders, hpays⟩ :=
    markOrderPaidFromWebhook_run st orderCode checkoutSessionId paymentId eventId rawPayload
      now order hfresh hres
  rw [hrun]
  refine ⟨rfl, ?_⟩
  intro r hr hrid
  have hr4 : r ∈ st4.orders := hr
  rw [horders] at hr4
  simp only [List.mem_map] at hr4
  obtain ⟨o0, ho0, rfl⟩ := hr4
  by_cases hid : (o0.id == order.id) = true
  · simp only [hid, if_true]
  · simp only [hid, Bool.false_eq_true, if_false] at hrid ⊢
    exact absurd (by simpa using hrid) (by simpa using hid)

/-- Witness for C10: the webhook drags the delivered order of `stDelivered`
back to "order_placed". -/
theorem markOrderPaidFromWebhook_overwrites_status_witness :
    (markOrderPaidFromWebhook "2025-01-02T00:00:00Z" (some "ORD-20250101-102") none
        (some "pay_9") "evt_9" "raw" stDelivered).2 = .ok false ∧
    ∀ r ∈ (markOrderPaidFromWebhook "2025-01-02T00:00:00Z" (some "ORD-20250101-102") none
        (some "pay_9") "evt_9" "raw" stDelivered).1.orders,
      r.id = deliveredOrder.id → r.status = "order_placed" :=
  markOrderPaidFromWebhook_overwrites_status stDelivered (some "ORD-20250101-102") none
    (some "pay_9") "evt_9" "raw" "2025-01-02T00:00:00Z" deliveredOrder (by decide) (by decide)

/-! ## C1: idempotent payment confirmation -/

/-- C1: a first webhook confirmation with a fresh gateway event id (on an
order that owns at least one payment row, as `createOrder` guarantees) reports
non-duplicate; calling `markOrderPaidFromWebhook` again with the same gateway
event id — whatever the other arguments are — is a strict no-op duplicate: it
returns the duplicate flag and leaves the whole store unchanged, so stock is
deducted exactly once and the payment rows, the order status and the payment
status keep the values of the first call. -/
theorem markOrderPaidFromWebhook_idempotent
    (st : Store)
    (orderCode checkoutSessionId paymentId orderCode2 checkoutSessionId2 paymentId2 :
      Option String)
    (eventId rawPayload rawPayload2 now now2 : String) (order : OrderRow)
    (hfresh : st.payments.any (fun r => r.provider_event_id == some eventId) = false)
    (hres : resolveWebhookOrder orderCode checkoutSessionId st = some order)
    (hpay : st.payments.any (fun r => r.order_id == order.id) = true) :
    (markOrderPaidFromWebhook now orderCode checkoutSessionId paymentId eventId
        rawPayload st).2 = .ok false ∧
    markOrderPaidFromWebhook now2 orderCode2 checkoutSessionId2 paymentId2 eventId rawPayload2
        (markOrderPaidFromWebhook now orderCode checkoutSessionId paymentId eventId
          rawPayload st).1 =
      ((markOrderPaidFromWebhook now orderCode checkoutSessionId paymentId eventId
          rawPayload st).1, .ok true) := by
  obtain ⟨st4, hrun, horders, hpays⟩ :=
    markOrderPaidFromWebhook_run st orderCode checkoutSessionId paymentId eventId rawPayload
      now order hfresh hres
  rw [hrun]
  refine ⟨rfl, ?_⟩
  show markOrderPaidFromWebhook now2 orderCode2 checkoutSessionId2 paymentId2 eventId
      rawPayload2 st4 = (st4, .ok true)
  have hdup : st4.payments.any (fun r => r.provider_event_id == some eventId) = true := by
    rw [hpays, List.any_eq_true]
    rw [List.any_eq_true] at hpay
    obtain ⟨r, hrmem, hrid⟩ := hpay
    refine ⟨_, List.mem_map_of_mem _ hrmem, ?_⟩
    simp [hrid]
  unfold markOrderPaidFromWebhook
  simp [hdup]

/-- An order item of the unpaid QRPH order. -/
def qrphItemRow : OrderItemRow :=
  { order_id := 1, product_id := some 1, sku := "P001", name := "Cola 1.5L",
    category := "Softdrinks", unit := "Bottle", image_url := "", unit_price := 55, qty := 2,
    line_total := 110 }

/-- The pending payment row of the unpaid QRPH order. -/
def qrphPaymentRow : PaymentRow :=
  { order_id := 1, provider := "paymongo", status := "pending", amount := 170,
    currency := "PHP", provider_event_id := none, provider_checkout_session_id := none,
    provider_payment_id := none, raw_payload := none }

/-- Store with the unpaid QRPH order, its item, its payment row and the
catalog product, right before the webhook arrives. -/
def stWebhook : Store :=
  { products := [colaProduct], orders := [qrphUnpaidOrder], orderItems := [qrphItemRow],
    statusEvents := [], payments := [qrphPaymentRow], nextOrderId := 2 }

/-- Witness for C1 on the concrete webhook store. -/
theorem markOrderPaidFromWebhook_idempotent_witness :
    (markOrderPaidFromWebhook "2025-01-02T00:00:00Z" (some "ORD-20250101-101")
        (some "cs_w2") (some "pay_1") "evt_1" "raw" stWebhook).2 = .ok false ∧
    markOrderPaidFromWebhook "2025-01-03T00:00:00Z" none (some "cs_w2") (some "pay_2")
        "evt_1" "raw2"
        (markOrderPaidFromWebhook "2025-01-02T00:00:00Z" (some "ORD-20250101-101")
          (some "cs_w2") (some "pay_1") "evt_1" "raw" stWebhook).1 =
      ((markOrderPaidFromWebhook "2025-01-02T00:00:00Z" (some "ORD-20250101-101")
          (some "cs_w2") (some "pay_1") "evt_1" "raw" stWebhook).1, .ok true) :=
  markOrderPaidFromWebhook_idempotent stWebhook (some "ORD-20250101-101") (some "cs_w2")
    (some "pay_1") none (some "cs_w2") (some "pay_2") "evt_1" "raw" "raw2"
    "2025-01-02T00:00:00Z" "2025-01-03T00:00:00Z" qrphUnpaidOrder
    (by decide) (by decide) (by decide)

/-! ## C7: the order-total invariant -/

/-- The accumulated subtotal of the pricing loop is the sum of the line
totals, each line total is unit price times quantity, and each unit price is a
catalog price returned by the lookup. -/
theorem priceOrderItems_ok
    (lookup : String → Option ProductRow) :
    ∀ (l : List (String × ℤ)) (rows : List PricedItem) (subtotal : ℤ),
    priceOrderItems lookup l = .ok (rows, subtotal) →
    subtotal = (rows.map (fun r => r.unit_price * r.qty)).sum ∧
    ∀ r ∈ rows, r.line_total = r.unit_price * r.qty ∧
      ∃ sku p, lookup sku = some p ∧ r.sku = p.sku ∧ r.unit_price = p.price
  | [], rows, subtotal => by
    intro h
    unfold priceOrderItems at h
    injection h with h1
    injection h1 with hrows hsub
    subst hrows hsub
    exact ⟨rfl, by intro r hr; exact absurd hr (List.not_mem_nil r)⟩
  | (sku, qty) :: rest, rows, subtotal => by
    intro h
    unfold priceOrderItems at h
    cases hlk : lookup sku with
    | none => rw [hlk] at h; exact absurd h (by simp)
    | some p =>
      rw [hlk] at h
      simp only at h
      split at h
      · exact absurd h (by simp)
      split at h
      · exact absurd h (by simp)
      cases hrec : priceOrderItems lookup rest with
      | error e => rw [hrec] at h; exact absurd h (by simp)
      | ok v =>
        obtain ⟨rows0, sub0⟩ := v
        rw [hrec] at h
        simp only at h
        injection h with h1
        injection h1 with hrows hsub
        subst hrows hsub
        obtain ⟨ihsum, ihmem⟩ := priceOrderItems_ok lookup rest rows0 sub0 hrec
        constructor
        · simp only [List.map_cons, List.sum_cons]
          rw [ihsum]
        · intro r hr
          rcases List.mem_cons.mp hr with rfl | hr0
          · exact ⟨rfl, sku, p, hlk, rfl, rfl⟩
          · exact ihmem r hr0

/-- A product found by the sku map comes from the listed products. -/
theorem foldl_lookup_mem (sku : String) :
    ∀ (ps : List ProductRow) (acc : Option ProductRow) (p : ProductRow),
    ps.foldl (fun acc q => if q.sku == sku then some q else acc) acc = some p →
    p ∈ ps ∨ acc = some p
  | [], acc, p => fun h => Or.inr h
  | q :: rest, acc, p => by
    intro h
    simp only [List.foldl_cons] at h
    rcases foldl_lookup_mem sku rest _ p h with hmem | hacc
    · exact Or.inl (List.mem_cons_of_mem _ hmem)
    · by_cases hq : (q.sku == sku) = true
      · rw [if_pos hq] at hacc
        injection hacc with hqp
        exact Or.inl (hqp ▸ List.mem_cons_self q rest)
      · rw [if_neg hq] at hacc
        exact Or.inr hacc

/-- `mapLookupLast` returns one of the listed products. -/
theorem mapLookupLast_mem (ps : List ProductRow) (sku : String) (p : ProductRow)
    (h : mapLookupLast ps sku = some p) : p ∈ ps := by
  unfold mapLookupLast at h
  rcases foldl_lookup_mem sku ps none p h with hmem | hacc
  · exact hmem
  · exact absurd hacc (by simp)

/-- Inversion of a successful validation phase: the subtotal is the sum of the
priced line totals and every priced row snapshots a catalog product. -/
theorem createOrderCore_ok_products
    (payload : OrderPayload) (prof : ProfileRow) (st : Store)
    (pm : String) (priced : List PricedItem) (subtotal : ℤ)
    (h : createOrderCore payload prof st = .ok (pm, priced, subtotal)) :
    subtotal = (priced.map (fun r => r.unit_price * r.qty)).sum ∧
    ∀ r ∈ priced, r.line_total = r.unit_price * r.qty ∧
      ∃ p ∈ st.products, r.sku = p.sku ∧ r.unit_price = p.price := by
  unfold createOrderCore at h
  simp only at h
  by_cases hv : (prof.user_id == "" || jsTrim payload.customerName == "" ||
      jsTrim payload.contact == "" || jsTrim payload.address == "" ||
      payload.items.isEmpty) = true
  · rw [if_pos hv] at h
    exact absurd h (by simp)
  · rw [if_neg hv] at h
    cases hsq : buildSkuQty [] payload.items with
    | error e =>
      rw [hsq] at h
      exact absurd h (by simp)
    | ok skuQty =>
      rw [hsq] at h
      simp only at h
      by_cases hlen : (candidateProducts st skuQty).length ≠ skuQty.length
      · rw [if_pos hlen] at h
        exact absurd h (by simp)
      · rw [if_neg hlen] at h
        cases hpi : priceOrderItems (mapLookupLast (candidateProducts st skuQty)) skuQty with
        | error e =>
          rw [hpi] at h
          exact absurd h (by simp)
        | ok v =>
          obtain ⟨rows0, sub0⟩ := v
          rw [hpi] at h
          simp only at h
          injection h with h1
          injection h1 with hpm2 hsub
          injection hsub with hr2 hs2
          subst hr2 hs2
          obtain ⟨hsum, hmem⟩ :=
            priceOrderItems_ok (mapLookupLast (candidateProducts st skuQty)) skuQty _ _ hpi
          refine ⟨hsum, ?_⟩
          intro r hr
          obtain ⟨hlt, sku, p, hlk, hsku, hprice⟩ := hmem r hr
          refine ⟨hlt, p, ?_, hsku, hprice⟩
          exact (List.mem_filter.mp (mapLookupLast_mem _ sku p hlk)).1

/-- The sku → quantity map never reads the client-supplied price field. -/
theorem buildSkuQty_price_blind (c : ℤ) :
    ∀ (items : List OrderPayloadItem) (acc : List (String × ℤ)),
    buildSkuQty acc (items.map (fun i => { i with price := c })) = buildSkuQty acc items
  | [], acc => rfl
  | item :: rest, acc => by
    unfold buildSkuQty
    simp only [List.map_cons]
    split
    · rfl
    · exact buildSkuQty_price_blind c rest _

/-- The whole validation phase never reads the client-supplied price field. -/
theorem createOrderCore_price_blind (payload : OrderPayload) (prof : ProfileRow)
    (st : Store) (c : ℤ) :
    createOrderCore { payload with items := payload.items.map (fun i => { i with price := c }) }
      prof st = createOrderCore payload prof st := by
  unfold createOrderCore
  rw [buildSkuQty_price_blind]
  cases payload.items with
  | nil => rfl
  | cons i rest => rfl

/-- `createOrder` never reads the client-supplied price field. -/
theorem createOrder_price_blind (payload : OrderPayload) (prof : ProfileRow)
    (code : String) (gw : Except Err CheckoutSession) (st : Store) (c : ℤ) :
    createOrder { payload with items := payload.items.map (fun i => { i with price := c }) }
      prof code gw st = createOrder payload prof code gw st := by
  unfold createOrder
  rw [createOrderCore_price_blind]

/-- C7: for every created order, total = subtotal + delivery fee; the subtotal
is the sum of unit price times quantity over the inserted line items; every
line item snapshots the authoritative catalog price of its sku at creation
time (the line total being unit price times quantity); and the client-supplied
price fields are ignored — zeroing them all changes nothing about the run. -/
theorem createOrder_total_invariant
    (payload : OrderPayload) (prof : ProfileRow) (code : String)
    (gw : Except Err CheckoutSession) (st st' : Store) (o : OrderRow)
    (rows : List OrderItemRow) (url : Option String)
    (h : createOrder payload prof code gw st = (st', .ok (o, rows, url))) :
    o.total = o.subtotal + o.delivery_fee ∧
    o.subtotal = (rows.map (fun r => r.unit_price * r.qty)).sum ∧
    (∀ r ∈ rows, r.line_total = r.unit_price * r.qty ∧
      ∃ p ∈ st.products, r.sku = p.sku ∧ r.unit_price = p.price) ∧
    createOrder { payload with items := payload.items.map (fun i => { i with price := 0 }) }
      prof code gw st = (st', .ok (o, rows, url)) := by
  obtain ⟨pm, priced, subtotal, hcore, hpm, hsub, hfee, htot, hstat, hrows⟩ :=
    createOrder_ok_inv h
  obtain ⟨hsum, hmem⟩ := createOrderCore_ok_products payload prof st pm priced subtotal hcore
  refine ⟨?_, ?_, ?_, ?_⟩
  · rw [htot, hsub, hfee]
  · rw [hsub, hrows, hsum, List.map_map]
    rfl
  · intro r hr
    rw [hrows] at hr
    simp only [List.mem_map] at hr
    obtain ⟨it, hit, rfl⟩ := hr
    obtain ⟨hlt, p, hp, hsku, hprice⟩ := hmem it hit
    exact ⟨hlt, p, hp, hsku, hprice⟩
  · rw [createOrder_price_blind]
    exact h

/-- Witness for C7 on the concrete created order. -/
theorem createOrder_total_invariant_witness :
    codOrderRow.total = codOrderRow.subtotal + codOrderRow.delivery_fee ∧
    codOrderRow.subtotal = ([codItemRow].map (fun r => r.unit_price * r.qty)).sum ∧
    (∀ r ∈ [codItemRow], r.line_total = r.unit_price * r.qty ∧
      ∃ p ∈ stCatalog.products, r.sku = p.sku ∧ r.unit_price = p.price) ∧
    createOrder { codPayload with
        items := codPayload.items.map (fun i => { i with price := 0 }) }
      buyerProfile "ORD-20250101-104" (.ok ⟨none, none⟩) stCatalog =
      (stAfterCod, .ok (codOrderRow, [codItemRow], none)) :=
  createOrder_total_invariant codPayload buyerProfile "ORD-20250101-104" (.ok ⟨none, none⟩)
    stCatalog stAfterCod codOrderRow [codItemRow] none (by decide)

/-! ## C9: validation failures happen before any write -/

/-- A bad payload item (empty trimmed sku or non-positive quantity) anywhere
in the list makes the merging loop throw. -/
theorem buildSkuQty_bad :
    ∀ (items : List OrderPayloadItem) (acc : List (String × ℤ)),
    (∃ i ∈ items, jsTrim i.productId = "" ∨ i.qty ≤ 0) →
    buildSkuQty acc items = .error ⟨"Invalid order item.", none⟩
  | [], acc => by
    rintro ⟨i, hi, _⟩
    exact absurd hi (List.not_mem_nil i)
  | item :: rest, acc => by
    rintro ⟨i, hi, hbad⟩
    by_cases hcond : (jsTrim item.productId == "" || decide (item.qty ≤ 0)) = true
    · simp only [buildSkuQty]
      rw [if_pos hcond]
    · simp only [buildSkuQty]
      rw [if_neg hcond]
      apply buildSkuQty_bad rest
      rcases List.mem_cons.mp hi with rfl | hrest
      · exfalso
        apply hcond
        rcases hbad with hb | hb
        · simp [hb]
        · simp [hb]
      · exact ⟨i, hrest, hbad⟩

/-- A merged entry whose sku does not resolve, resolves to an inactive
product, or exceeds the available stock makes the pricing loop throw. -/
theorem priceOrderItems_bad (lookup : String → Option ProductRow) :
    ∀ (l : List (String × ℤ)),
    (∃ kv ∈ l, lookup kv.1 = none ∨
      (∃ p, lookup kv.1 = some p ∧ p.is_active = false) ∨
      (∃ p, lookup kv.1 = some p ∧ p.stock_cases < kv.2)) →
    ∃ e, priceOrderItems lookup l = .error e
  | [] => by
    rintro ⟨kv, hkv, _⟩
    exact absurd hkv (List.not_mem_nil kv)
  | (sku, qty) :: rest => by
    rintro ⟨kv, hkv, hbad⟩
    cases hlk : lookup sku with
    | none =>
      refine ⟨⟨sku ++ " is inactive.", none⟩, ?_⟩
      unfold priceOrderItems
      rw [hlk]
    | some p =>
      by_cases hact : p.is_active = false
      · refine ⟨⟨sku ++ " is inactive.", none⟩, ?_⟩
        unfold priceOrderItems
        rw [hlk]
        simp only
        rw [if_pos (by simp [hact])]
      · by_cases hstk : p.stock_cases < qty
        · refine ⟨⟨p.name ++ " has insufficient stock.", none⟩, ?_⟩
          unfold priceOrderItems
          rw [hlk]
          simp only
          rw [if_neg (by simp at hact ⊢; exact hact), if_pos hstk]
        · have hrest : ∃ kv ∈ rest, lookup kv.1 = none ∨
              (∃ p, lookup kv.1 = some p ∧ p.is_active = false) ∨
              (∃ p, lookup kv.1 = some p ∧ p.stock_cases < kv.2) := by
            rcases List.mem_cons.mp hkv with rfl | hr
            · exfalso
              rcases hbad with hb | ⟨q, hq, hqa⟩ | ⟨q, hq, hqs⟩
              · rw [hlk] at hb
                exact absurd hb (by simp)
              · rw [hlk] at hq
                injection hq with hq
                exact hact (hq ▸ hqa)
              · rw [hlk] at hq
                injection hq with hq
                exact hstk (hq ▸ hqs)
            · exact ⟨kv, hr, hbad⟩
          obtain ⟨e, he⟩ := priceOrderItems_bad lookup rest hrest
          refine ⟨e, ?_⟩
          unfold priceOrderItems
          rw [hlk]
          simp only
          rw [if_neg (by simp at hact ⊢; exact hact), if_neg hstk, he]

/-- C9: when any of the validation checks of `createOrder` fails — missing
requester or customer fields, empty item list, an item with an empty sku or a
non-positive quantity, a sku that does not resolve, an inactive product, or
insufficient stock — `createOrder` throws without performing any write: the
store it returns is exactly the store it was given, with no Order, OrderItem,
OrderStatusEvent or Payment row inserted. -/
theorem createOrder_validation_no_writes
    (payload : OrderPayload) (prof : ProfileRow) (code : String)
    (gw : Except Err CheckoutSession) (st : Store)
    (hbad :
      (prof.user_id = "" ∨ jsTrim payload.customerName = "" ∨ jsTrim payload.contact = "" ∨
        jsTrim payload.address = "" ∨ payload.items = []) ∨
      (∃ i ∈ payload.items, jsTrim i.productId = "" ∨ i.qty ≤ 0) ∨
      (∃ skuQty, buildSkuQty [] payload.items = .ok skuQty ∧
        ((candidateProducts st skuQty).length ≠ skuQty.length ∨
         ∃ kv ∈ skuQty,
           mapLookupLast (candidateProducts st skuQty) kv.1 = none ∨
           (∃ p, mapLookupLast (candidateProducts st skuQty) kv.1 = some p ∧
             p.is_active = false) ∨
           (∃ p, mapLookupLast (candidateProducts st skuQty) kv.1 = some p ∧
             p.stock_cases < kv.2)))) :
    (createOrder payload prof code gw st).1 = st ∧
    isErrResult (createOrder payload prof code gw st).2 = true := by
  have hcore : ∃ e, createOrderCore payload prof st = .error e := by
    by_cases hv : (prof.user_id == "" || jsTrim payload.customerName == "" ||
        jsTrim payload.contact == "" || jsTrim payload.address == "" ||
        payload.items.isEmpty) = true
    · refine ⟨⟨"Missing required order fields.", none⟩, ?_⟩
      simp only [createOrderCore]
      rw [if_pos hv]
    · rcases hbad with h1 | h2 | h3
      · exfalso
        apply hv
        rcases h1 with h | h | h | h | h <;> simp [h]
      · refine ⟨⟨"Invalid order item.", none⟩, ?_⟩
        simp only [createOrderCore]
        rw [if_neg hv, buildSkuQty_bad payload.items [] h2]
      · obtain ⟨skuQty, hsq, hrest⟩ := h3
        by_cases hlen : (candidateProducts st skuQty).length ≠ skuQty.length
        · refine ⟨⟨"Some products were not found in Supabase.", none⟩, ?_⟩
          simp only [createOrderCore]
          rw [if_neg hv, hsq]
          simp only
          rw [if_pos hlen]
        · rcases hrest with hlen2 | hkv
          · exact absurd hlen2 hlen
          · obtain ⟨e, he⟩ :=
              priceOrderItems_bad (mapLookupLast (candidateProducts st skuQty)) skuQty hkv
            refine ⟨e, ?_⟩
            simp only [createOrderCore]
            rw [if_neg hv, hsq]
            simp only
            rw [if_neg hlen, he]
  obtain ⟨e, he⟩ := hcore
  unfold createOrder
  rw [he]
  exact ⟨rfl, rfl⟩

/-- A checkout payload with an empty contact field. -/
def badPayload : OrderPayload :=
  { customerName := "Ana", contact := "", address := "Manila", paymentMethod := "COD",
    items := [{ productId := "P001", qty := 1, price := 0 }] }

/-- Witness for C9: the invalid payload leaves the store untouched. -/
theorem createOrder_validation_no_writes_witness :
    (createOrder badPayload buyerProfile "ORD-20250101-105" (.ok ⟨none, none⟩)
        stCatalog).1 = stCatalog ∧
    isErrResult (createOrder badPayload buyerProfile "ORD-20250101-105" (.ok ⟨none, none⟩)
        stCatalog).2 = true :=
  createOrder_validation_no_writes badPayload buyerProfile "ORD-20250101-105"
    (.ok ⟨none, none⟩) stCatalog (Or.inl (by decide))

end Jazjo
